import Mathlib

/-
Verification of the Driver Tracker (source: src/source/analysis/DriverTracker.cpp)
against its natural-language specification.

The development is a shallow embedding: the data model of spec section 3 is
translated into Lean structures, and each function of DriverTracker.cpp that
the claims depend on is translated into an executable Lean definition.
External collaborators (LSP utilities, the elaborator, the concurrent map)
are abstracted exactly at the boundary that the spec declares out of scope
in section 6; where a definition comes from the spec rather than from code
under src/, its doc comment says so.
-/

namespace DT

/-- Symbol kinds relevant to driver tracking (spec section 3; the source
dispatches on SymbolKind values of the external AST). -/
inductive SymbolKind where
  | Net
  | Variable
  | ClassProperty
  | Field
  | ModportPort
  | LocalAssertionVar
  | ClockVar
  | Port
  | OtherKind
  deriving DecidableEq

/-- Net kinds used by addDriver: UWire, UserDefined, or anything else
(plain wire and friends). -/
inductive NetKind where
  | UWire
  | UserDefined
  | OtherNet
  deriving DecidableEq

/-- Variable lifetime (spec section 3). -/
inductive Lifetime where
  | Static
  | Automatic
  deriving DecidableEq

/-- DriverKind from the data model: continuous or procedural assignment. -/
inductive DriverKind where
  | Continuous
  | Procedural
  deriving DecidableEq

/-- DriverSource: the syntactic origin of a driver (spec section 3). -/
inductive DriverSource where
  | Continuous
  | AlwaysComb
  | AlwaysFF
  | AlwaysLatch
  | Always
  | Initial
  | Final
  | Subroutine
  | Other
  deriving DecidableEq

/-- DriverFlags bitmask (spec section 3): InputPort, OutputPort, ClockVar,
Initializer. -/
structure DriverFlags where
  inputPort : Bool
  outputPort : Bool
  clockVar : Bool
  initializer : Bool
  deriving DecidableEq

/-- The all-clear flags value (DriverFlags::None). -/
def DriverFlags.none : DriverFlags :=
  { inputPort := false, outputPort := false, clockVar := false, initializer := false }

/-- A source range, as a pair of location offsets (start, end). -/
abbrev SrcRange := Nat × Nat

/-- Prefix expressions rooted at a driven symbol. Only the shapes that
DriverTracker.cpp inspects are represented: named values, hierarchical
values (whose reference may go through an interface port), the three select
shapes that modport splicing rebuilds, and an opaque remainder. Types,
selectors and references of the external AST are represented by numeric
identifiers. Each constructor carries its source range (start, end). -/
inductive Expr where
  | namedValue (sym : Nat) (rs re : Nat)
  | hierarchicalValue (sym : Nat) (viaIfacePort : Bool) (refId : Nat) (rs re : Nat)
  | elementSelect (ty : Nat) (root : Expr) (sel : Nat) (rs re : Nat)
  | rangeSelect (selKind : Nat) (ty : Nat) (root : Expr) (left right : Nat) (rs re : Nat)
  | memberAccess (ty : Nat) (root : Expr) (member : Nat) (rs re : Nat)
  | otherExpr (rs re : Nat)
  deriving DecidableEq

/-- Source range of an expression node. -/
def Expr.sourceRange : Expr → SrcRange
  | .namedValue _ rs re => (rs, re)
  | .hierarchicalValue _ _ _ rs re => (rs, re)
  | .elementSelect _ _ _ rs re => (rs, re)
  | .rangeSelect _ _ _ _ _ rs re => (rs, re)
  | .memberAccess _ _ _ rs re => (rs, re)
  | .otherExpr rs re => (rs, re)

/-- ValueDriver (spec section 3): one assignment site. The containing symbol
is represented by its identifier; procCallRange is the optional source range
of the enclosing procedural call. -/
structure ValueDriver where
  kind : DriverKind
  source : DriverSource
  flags : DriverFlags
  containingSymbol : Nat
  isFromSideEffect : Bool
  prefixExpression : Expr
  procCallRange : Option SrcRange
  deriving DecidableEq

/-- Modelled from the spec: ValueDriver::isUnidirectionalPort is declared in
a header outside src/. Per spec section 4.2 a unidirectional-port driver is
one flagged InputPort or OutputPort. -/
def ValueDriver.isUnidirectionalPort (d : ValueDriver) : Bool :=
  d.flags.inputPort || d.flags.outputPort

/-- Modelled from the spec: ValueDriver::isInputPort tests the InputPort flag. -/
def ValueDriver.isInputPort (d : ValueDriver) : Bool :=
  d.flags.inputPort

/-- Modelled from the spec: ValueDriver::isClockVar tests the ClockVar flag. -/
def ValueDriver.isClockVar (d : ValueDriver) : Bool :=
  d.flags.clockVar

/-- Modelled from the spec: a single-driver procedure is always_comb,
always_ff or always_latch (spec glossary), decided from the driver source. -/
def ValueDriver.isInSingleDriverProcedure (d : ValueDriver) : Bool :=
  d.source == DriverSource.AlwaysComb || d.source == DriverSource.AlwaysFF ||
    d.source == DriverSource.AlwaysLatch

/-- Modelled from the spec: ValueDriver::getSourceRange is declared outside
src/. The spec says procCallExpression is the source range of the enclosing
procedural call used for diagnostics; when absent the prefix expression
supplies the range (consistent with the use at lines 345-351 of the source,
where the prefix range is attached as an extra note exactly when a
procCallExpression produced the main range). -/
def ValueDriver.getSourceRange (d : ValueDriver) : SrcRange :=
  d.procCallRange.getD d.prefixExpression.sourceRange

/-- Symbol (spec section 3): the elaborated declaration a driver targets,
with the attributes DriverTracker.cpp reads through external accessors:
declared-type classness, initializer presence, selectable width, lifetime,
net kind, resolution function presence, name, location and parent scope. -/
structure Symbol where
  id : Nat
  name : String
  kind : SymbolKind
  isClassType : Bool
  hasInitializer : Bool
  selectableWidth : Nat
  lifetime : Lifetime
  netKind : NetKind
  hasResolutionFunction : Bool
  netTypeName : String
  location : Nat
  parentScope : Nat
  deriving DecidableEq

/-- Closed bit interval [lo, hi] over the selectable width (spec section 3). -/
structure DriverBitRange where
  lo : Nat
  hi : Nat
  deriving DecidableEq

/-- Two closed intervals overlap when neither lies strictly beyond the other. -/
def rangesOverlap (a b : DriverBitRange) : Bool :=
  a.lo ≤ b.hi && b.lo ≤ a.hi

/-- The per-symbol interval map, modelled as the list of (interval, driver)
entries in insertion order; spec section 3 fixes that ordering among
overlapping entries is the insertion order and entries are never deleted. -/
abbrev SymbolDriverMap := List (DriverBitRange × ValueDriver)

/-- All entries of the map that overlap a query range, in storage order
(the find/iterate contract of spec section 4.1). -/
def overlapping (m : SymbolDriverMap) (b : DriverBitRange) : SymbolDriverMap :=
  m.filter (fun e => rangesOverlap e.1 b)

/-- Diagnostic codes required of the sink (spec section 6). -/
inductive DiagCode where
  | InputPortAssign
  | InputPortCoercion
  | OutputPortCoercion
  | ClockVarTargetAssign
  | MultipleAlwaysAssigns
  | MultipleUWireDrivers
  | MultipleUDNTDrivers
  | MultipleContAssigns
  | MixedVarAssigns
  deriving DecidableEq

/-- Note kinds attachable to a diagnostic (spec section 6). -/
inductive NoteKind where
  | declarationHere
  | drivenHere
  | referencedHere
  | assignedHere
  | fromHere2
  | originalAssign
  deriving DecidableEq

/-- One note attached to a diagnostic: its kind, its source range (none for
the NoLocation used by FromHere2), and for FromHere2 the two hierarchical
paths, represented by the containing-symbol identifiers streamed in. -/
structure Note where
  kind : NoteKind
  range : Option SrcRange
  paths : Option (Nat × Nat)
  deriving DecidableEq

/-- One emitted diagnostic: code, target symbol, main source range, and the
payloads the source streams into it (the symbol name, the stringified LSP
represented by the prefix expression itself, the procedural-block kind, the
net type name), plus its notes. -/
structure Diag where
  code : DiagCode
  symId : Nat
  range : SrcRange
  textSym : Option String
  textExpr : Option Expr
  textProcKind : Option DriverSource
  textNetType : Option String
  notes : List Note
  deriving DecidableEq

/-- First note range of a diagnostic, used to observe which source range a
report attributes to the other side (the port side for port diagnostics). -/
def Diag.firstNoteRange (d : Diag) : Option SrcRange :=
  match d.notes with
  | [] => none
  | n :: _ => n.range

/-- Condition of the first branch of handleOverlap (lines 261-265 of the
source): a non-uwire non-UDNT net with a unidirectional-port driver on
either side, or a non-net with an input-port driver on either side. -/
def portBranchCond (isNet isUWire isUDNT : Bool) (curr driver : ValueDriver) : Bool :=
  (isNet && (curr.isUnidirectionalPort || driver.isUnidirectionalPort)
      && !isUWire && !isUDNT)
    || (!isNet && (curr.isInputPort || driver.isInputPort))

/-- Condition of the clock-variable branch (line 294). -/
def clockBranchCond (curr driver : ValueDriver) : Bool :=
  curr.isClockVar || driver.isClockVar

/-- Condition of the multiple-procedural branch (line 327). -/
def procBranchCond (curr driver : ValueDriver) : Bool :=
  (curr.kind == DriverKind.Procedural) && (driver.kind == DriverKind.Procedural)

/-- handleOverlap (lines 251-375 of the source): decides the diagnostic for a
problematic overlapping pair, where curr is the already-stored driver and
driver is the one being inserted. Returns the emitted diagnostic, if any,
and the boolean result (true means warning, keep scanning; false means hard
error, stop scanning). Translated branch for branch; the local range swaps
of the source become the conditional range selections below. -/
def handleOverlap (symbol : Symbol) (curr driver : ValueDriver)
    (isNet isUWire isSingleDriverUDNT : Bool) (netTypeName : String) :
    Option Diag × Bool :=
  let currRange := curr.getSourceRange
  let driverRange := driver.getSourceRange
  if portBranchCond isNet isUWire isSingleDriverUDNT curr driver then
    let code :=
      if isNet then
        if curr.flags.inputPort then DiagCode.InputPortCoercion
        else DiagCode.OutputPortCoercion
      else DiagCode.InputPortAssign
    let doSwap := driver.isInputPort || curr.flags.outputPort
    let portRange := if doSwap then driverRange else currRange
    let assignRange := if doSwap then currRange else driverRange
    let noteKind :=
      if code == DiagCode.OutputPortCoercion then NoteKind.drivenHere
      else NoteKind.declarationHere
    (some { code := code, symId := symbol.id, range := assignRange,
            textSym := some symbol.name, textExpr := none, textProcKind := none,
            textNetType := none,
            notes := [{ kind := noteKind, range := some portRange, paths := none }] },
      isNet)
  else if clockBranchCond curr driver then
    if curr.isClockVar && driver.isClockVar then (none, true)
    else if (curr.kind == DriverKind.Procedural) || (driver.kind == DriverKind.Procedural) then
      (none, true)
    else
      let reportRange := if driver.isClockVar then currRange else driverRange
      let noteRange := if driver.isClockVar then driverRange else currRange
      (some { code := DiagCode.ClockVarTargetAssign, symId := symbol.id,
              range := reportRange, textSym := some symbol.name, textExpr := none,
              textProcKind := none, textNetType := none,
              notes := [{ kind := NoteKind.referencedHere, range := some noteRange,
                          paths := none }] },
        false)
  else if procBranchCond curr driver then
    let single := driver.isInSingleDriverProcedure
    let procKind := if single then driver.source else curr.source
    let reportRange := if single then driverRange else currRange
    let otherRange := if single then currRange else driverRange
    let nameSource := if single then driver else curr
    let firstNote :=
      if otherRange.1 == reportRange.1 then
        ({ kind := NoteKind.fromHere2, range := Option.none,
           paths := some (driver.containingSymbol, curr.containingSymbol) } : Note)
      else
        { kind := NoteKind.assignedHere, range := some otherRange, paths := Option.none }
    let extraNotes :=
      if driver.procCallRange.isSome || curr.procCallRange.isSome then
        [({ kind := NoteKind.originalAssign,
            range := some (if driver.procCallRange.isSome then
                             driver.prefixExpression.sourceRange
                           else curr.prefixExpression.sourceRange),
            paths := Option.none } : Note)]
      else []
    (some { code := DiagCode.MultipleAlwaysAssigns, symId := symbol.id,
            range := reportRange, textSym := none,
            textExpr := some nameSource.prefixExpression,
            textProcKind := some procKind, textNetType := none,
            notes := firstNote :: extraNotes },
      false)
  else
    let code :=
      if isUWire then DiagCode.MultipleUWireDrivers
      else if isSingleDriverUDNT then DiagCode.MultipleUDNTDrivers
      else if (driver.kind == DriverKind.Continuous) && (curr.kind == DriverKind.Continuous) then
        DiagCode.MultipleContAssigns
      else DiagCode.MixedVarAssigns
    let firstNote :=
      if currRange.1 == driverRange.1 then
        ({ kind := NoteKind.fromHere2, range := Option.none,
           paths := some (driver.containingSymbol, curr.containingSymbol) } : Note)
      else
        { kind := NoteKind.assignedHere, range := some currRange, paths := Option.none }
    (some { code := code, symId := symbol.id, range := driverRange, textSym := none,
            textExpr := some driver.prefixExpression, textProcKind := none,
            textNetType := if isSingleDriverUDNT then some netTypeName else none,
            notes := [firstNote] },
      false)

/-- shouldIgnore (lines 471-476): subroutine drivers, initializer drivers,
and initial-block drivers under the AllowDupInitialDrivers flag are ignored
by the procedural-overlap rule. -/
def shouldIgnore (allowDupInitialDrivers : Bool) (vd : ValueDriver) : Bool :=
  (vd.source == DriverSource.Subroutine) || vd.flags.initializer ||
    ((vd.source == DriverSource.Initial) && allowDupInitialDrivers)

/-- The isProblem decision of the overlap loop in addDriver (lines 497-512):
a unidirectional-port mismatch always reports; otherwise, under
checkOverlap, a continuous driver on either side reports, and two
procedural drivers report when they come from different containing symbols,
neither is ignorable, and at least one sits in a single-driver procedure. -/
def isProblem (allowDupInitialDrivers checkOverlap : Bool) (curr driver : ValueDriver) : Bool :=
  if curr.isUnidirectionalPort != driver.isUnidirectionalPort then true
  else if checkOverlap then
    if (driver.kind == DriverKind.Continuous) || (curr.kind == DriverKind.Continuous) then true
    else if (curr.containingSymbol != driver.containingSymbol)
        && !shouldIgnore allowDupInitialDrivers curr
        && !shouldIgnore allowDupInitialDrivers driver
        && (curr.isInSingleDriverProcedure || driver.isInSingleDriverProcedure) then true
    else false
  else false

/-- Interface-port references found by the pre-scan of a prefix expression:
the source walks the expression with the external visitComponents and keeps
the reference of every HierarchicalValueExpression whose hierarchical
reference goes through an interface port (lines 393-402). The walk here
descends through the select shapes to the root value. -/
def ifaceRefs : Expr → List Nat
  | .hierarchicalValue _ viaIfacePort refId _ _ => if viaIfacePort then [refId] else []
  | .elementSelect _ root _ _ _ => ifaceRefs root
  | .rangeSelect _ _ root _ _ _ _ => ifaceRefs root
  | .memberAccess _ root _ _ _ => ifaceRefs root
  | _ => []

/-- Result of the pre-scan: the source overwrites its result variable on
each match, so the last reference in visitation order wins. -/
def scanIfaceRef (e : Expr) : Option Nat :=
  (ifaceRefs e).getLast?

/-- Modelled from the spec: VariableSymbol::isKind is declared outside src/.
Spec section 4.2 step 6 makes checkOverlap true for static-lifetime
variables; the variable-like kinds of the data model are Variable,
ClassProperty, Field, ClockVar and LocalAssertionVar. Net and the others
are not variables. -/
def isVariableKind : SymbolKind → Bool
  | .Variable | .ClassProperty | .Field | .ClockVar | .LocalAssertionVar => true
  | _ => false

/-- The synthesized initializer driver of addDriver (lines 414-424): a
named-value expression over the symbol, spanning its name at its location,
owned by the parent scope, flagged Initializer. The ValueDriver constructor
used by the source lives outside src/; per the spec the source field
enumerates the syntactic origin, and no origin of the initializer driver is
ever observed by the overlap logic, so it is modelled as Other. -/
def initializerDriver (s : Symbol) (driverKind : DriverKind) : ValueDriver :=
  { kind := driverKind
    source := DriverSource.Other
    flags := { inputPort := false, outputPort := false, clockVar := false,
               initializer := true }
    containingSymbol := s.parentScope
    isFromSideEffect := false
    prefixExpression := Expr.namedValue s.id s.location (s.location + s.name.length)
    procCallRange := none }

/-- Bit range of the synthesized initializer driver: [0, selectableWidth-1]. -/
def initBounds (s : Symbol) : DriverBitRange :=
  { lo := 0, hi := s.selectableWidth - 1 }

/-- The overlap loop of addDriver (lines 479-520): walk the stored entries
overlapping the new bounds in storage order; on each problem invoke
handleOverlap, collecting its diagnostic; a false return (hard error) stops
the scan. -/
def scanOverlaps (allowDup checkOverlap : Bool) (symbol : Symbol)
    (isNet isUWire isUDNT : Bool) (netTypeName : String) (driver : ValueDriver) :
    SymbolDriverMap → List Diag
  | [] => []
  | e :: rest =>
    if isProblem allowDup checkOverlap e.2 driver then
      let r := handleOverlap symbol e.2 driver isNet isUWire isUDNT netTypeName
      r.1.toList ++
        (if r.2 then scanOverlaps allowDup checkOverlap symbol isNet isUWire
                      isUDNT netTypeName driver rest
         else [])
    else scanOverlaps allowDup checkOverlap symbol isNet isUWire isUDNT
          netTypeName driver rest

/-- Analysis configuration: the AllowDupInitialDrivers flag (spec section 6). -/
structure Config where
  allowDupInitialDrivers : Bool
  deriving DecidableEq

/-- Everything one addDriver call produces: the updated interval map, the
entries appended to modportPortDrivers for this symbol, the emitted
diagnostics in order, and the interface-port reference handed back to the
caller. -/
structure AddResult where
  map : SymbolDriverMap
  modportAdd : List (ValueDriver × DriverBitRange)
  diags : List Diag
  ifaceRef : Option Nat
  deriving DecidableEq

/-- addDriver (lines 377-524 of the source), translated step for step:
reject class-typed symbols; pre-scan for an interface-port reference unless
the driver came from a side effect; divert modport-port drivers to the side
table; on a first driver, synthesize the initializer driver; insert
directly when the map is empty; otherwise run the overlap scan and then
insert. -/
def addDriver (cfg : Config) (symbol : Symbol) (driverMap : SymbolDriverMap)
    (driver : ValueDriver) (bounds : DriverBitRange) : AddResult :=
  if symbol.isClassType then
    { map := driverMap, modportAdd := [], diags := [], ifaceRef := none }
  else
    let result := if driver.isFromSideEffect then none
                  else scanIfaceRef driver.prefixExpression
    if symbol.kind == SymbolKind.ModportPort then
      { map := driverMap, modportAdd := [(driver, bounds)], diags := [],
        ifaceRef := result }
    else
      let driverMap1 :=
        if driverMap.isEmpty then
          match symbol.kind with
          | SymbolKind.Net =>
            if symbol.hasInitializer then
              driverMap ++ [(initBounds symbol, initializerDriver symbol DriverKind.Continuous)]
            else driverMap
          | SymbolKind.Variable | SymbolKind.ClassProperty | SymbolKind.Field =>
            if symbol.hasInitializer then
              driverMap ++ [(initBounds symbol, initializerDriver symbol DriverKind.Procedural)]
            else driverMap
          | _ => driverMap
        else driverMap
      if driverMap1.isEmpty then
        { map := driverMap1 ++ [(bounds, driver)], modportAdd := [], diags := [],
          ifaceRef := result }
      else
        let isNet := symbol.kind == SymbolKind.Net
        let isUWire := isNet && (symbol.netKind == NetKind.UWire)
        let isUDNT := isNet && (symbol.netKind == NetKind.UserDefined)
                        && !symbol.hasResolutionFunction
        let checkOverlap :=
          (isVariableKind symbol.kind && (symbol.lifetime == Lifetime.Static))
            || isUWire || isUDNT || (symbol.kind == SymbolKind.LocalAssertionVar)
        let diags := scanOverlaps cfg.allowDupInitialDrivers checkOverlap symbol
                      isNet isUWire isUDNT symbol.netTypeName driver
                      (overlapping driverMap1 bounds)
        { map := driverMap1 ++ [(bounds, driver)], modportAdd := [], diags := diags,
          ifaceRef := result }

/-- Per-symbol tracker state: the entry of the symbolDrivers concurrent map
(the interval map) together with the entry of the modportPortDrivers map
for the same key. The two concurrent maps of the source share the value
symbol as key, so they are represented as one association keyed by symbol. -/
structure SymState where
  map : SymbolDriverMap
  mp : List (ValueDriver × DriverBitRange)
  deriving DecidableEq

/-- The empty per-symbol state: an entry freshly created by
try_emplace_and_visit holds an empty interval map. -/
def SymState.empty : SymState := { map := [], mp := [] }

/-- Whole-tracker state, as an association list from symbols to their
per-symbol state. Concurrency is out of scope (spec section 5 reduces it to
per-entry exclusive visitation); the sequential association captures the
content of the maps. -/
abbrev TrackerState := List (Symbol × SymState)

/-- The empty tracker. -/
def emptyTracker : TrackerState := []

/-- Entry lookup; an absent key behaves as a freshly created empty entry,
matching the try_emplace_and_visit / cvisit contract. -/
def getSym : TrackerState → Symbol → SymState
  | [], _ => SymState.empty
  | (k, v) :: rest, s => if k = s then v else getSym rest s

/-- Entry update (create or replace). -/
def setSym : TrackerState → Symbol → SymState → TrackerState
  | [], s, v => [(s, v)]
  | (k, w) :: rest, s, v =>
    if k = s then (k, v) :: rest else (k, w) :: setSym rest s v

/-- One tracker-level addDriver call: run addDriver on the entry of the
target symbol and store the updated interval map and modport additions. -/
def applyAdd (cfg : Config) (st : TrackerState) (s : Symbol) (d : ValueDriver)
    (b : DriverBitRange) : TrackerState × List Diag × Option Nat :=
  let σ := getSym st s
  let r := addDriver cfg s σ.map d b
  (setSym st s { map := r.map, mp := σ.mp ++ r.modportAdd }, r.diags, r.ifaceRef)

/-- A sequence of tracker-level addDriver calls; every public add entry
point of the source funnels each individual driver through addDriver under
the per-symbol visitor, so tracker states reachable by the public interface
are exactly the states reachable by such sequences. -/
def runOps (cfg : Config) (st : TrackerState) :
    List (Symbol × ValueDriver × DriverBitRange) → TrackerState
  | [] => st
  | (s, d, b) :: rest => runOps cfg (applyAdd cfg st s d b).1 rest

/-- getDrivers (lines 235-242): snapshot of all (driver, bounds) entries of
the interval map of the symbol; an absent entry yields the empty list. -/
def getDrivers (st : TrackerState) (s : Symbol) : List (ValueDriver × DriverBitRange) :=
  (getSym st s).map.map (fun e => (e.2, e.1))

/-- A per-procedure driver list: for each symbol, the (driver, bounds)
pairs produced by the per-procedure analyzer. -/
abbrev ProcDriverList := List (Symbol × List (ValueDriver × DriverBitRange))

/-- Argument directions of ports and clock variables. -/
inductive ArgDirection where
  | In
  | Out
  | InOut
  | Ref
  deriving DecidableEq

/-- The attributes of a PortSymbol that add(portSymbol) reads: direction,
the optional internal expression, and the optional internal symbol with its
identifier, name and location. -/
structure PortInfo where
  direction : ArgDirection
  internalExpr : Option Expr
  internalSymbol : Option (Nat × String × Nat)
  deriving DecidableEq

/-- add(portSymbol) (lines 71-91): input and inout ports drive their
internal-facing expression; inputs carry the InputPort flag. When there is
no internal expression but there is an internal symbol, a named-value
reference to it is synthesized whose source range starts at the symbol
location and extends by the length of its name. The function returns the
expression and flags that are handed to addDrivers with Continuous kind, or
none when nothing is recorded. -/
def addPortSymbol (p : PortInfo) : Option (Expr × DriverFlags) :=
  if p.direction ≠ ArgDirection.In ∧ p.direction ≠ ArgDirection.InOut then none
  else
    let flags :=
      if p.direction = ArgDirection.In then
        { DriverFlags.none with inputPort := true }
      else DriverFlags.none
    match p.internalExpr with
    | some e => some (e, flags)
    | none =>
      match p.internalSymbol with
      | some (symId, symName, loc) =>
        some (Expr.namedValue symId loc (loc + symName.length), flags)
      | none => none

/-- applyInstanceSideEffect (lines 679-701): retarget the reference onto the
given instance, clone the driver with the instance as containing symbol and
isFromSideEffect set, recompute bounds, insert through addDriver, and
assert that addDriver returned no interface-port reference. The retarget
and bounds computations walk the external elaborated AST (retargetIfacePort
and LSPUtilities::getBounds), so they enter as function parameters; the
returned boolean records whether the assertion at line 697 held. -/
def applyInstanceSideEffect (cfg : Config) (retarget : Nat → Option Symbol)
    (getBnds : ValueDriver → Symbol → Option DriverBitRange) (st : TrackerState)
    (ref : Nat) (origDriver : ValueDriver) (instanceId : Nat) : TrackerState × Bool :=
  match retarget ref with
  | none => (st, true)
  | some target =>
    let driver := { origDriver with
                    containingSymbol := instanceId
                    isFromSideEffect := true }
    match getBnds driver target with
    | none => (st, true)
    | some bounds =>
      let σ := getSym st target
      let r := addDriver cfg target σ.map driver bounds
      (setSym st target { map := r.map, mp := σ.mp ++ r.modportAdd },
        r.ifaceRef == none)

/-- The splicing of propagateModportDriver (lines 172-195): rebuild the
outermost select of the original prefix expression on top of the connection
expression; any other shape yields no initial LSP and the connection
expression is driven directly. -/
def spliceRoot (connectionExpr : Expr) : Expr → Option Expr
  | .elementSelect ty _ sel rs re => some (.elementSelect ty connectionExpr sel rs re)
  | .rangeSelect k ty _ l r rs re => some (.rangeSelect k ty connectionExpr l r rs re)
  | .memberAccess ty _ m rs re => some (.memberAccess ty connectionExpr m rs re)
  | _ => none

/-- Re-projection of one drained modport entry (propagateModportDriver plus
the lookup at lines 154-159): a port with no connection expression is
silently dropped; otherwise the driver is resubmitted through the
connection expression with its kind and flags preserved and the outer
select spliced onto the connection. Which value symbols the resubmission
reaches is decided by the external visitLSPs walk, abstracted as proj;
isMp tells which of those symbols are themselves modport ports (diverted
back into the side table by addDriver) and which go to the main map. -/
def passOne (connOf : Nat → Option Expr) (proj : Nat → List Nat)
    (e : Nat × ValueDriver) : List (Nat × ValueDriver) :=
  match connOf e.1 with
  | none => []
  | some conn =>
    let d := e.2
    let d2 : ValueDriver :=
      { kind := d.kind, source := d.source, flags := d.flags,
        containingSymbol := d.containingSymbol, isFromSideEffect := false,
        prefixExpression := (spliceRoot conn d.prefixExpression).getD conn,
        procCallRange := none }
    (proj e.1).map (fun q => (q, d2))

/-- One pass of the propagation loop body (lines 154-159): drain every
entry, re-project it, and split the results into the drivers landing on
further modport ports (re-entering the side table) and the drivers
deposited on ordinary symbols. -/
def propagatePass (connOf : Nat → Option Expr) (proj : Nat → List Nat)
    (isMp : Nat → Bool) (l : List (Nat × ValueDriver)) :
    List (Nat × ValueDriver) × List (Nat × ValueDriver) :=
  let stepped := l.flatMap (passOne connOf proj)
  (stepped.filter (fun e => isMp e.1), stepped.filter (fun e => !isMp e.1))

/-- propagateModportDrivers (lines 147-161): swap the side table with an
empty map, stop when it was empty, otherwise re-project every drained entry
and repeat. The C++ loop has no guard, so the embedding carries explicit
fuel: none signals fuel exhaustion, some carries the deposited drivers and
the final side-table content. -/
def propagateLoop (connOf : Nat → Option Expr) (proj : Nat → List Nat)
    (isMp : Nat → Bool) :
    Nat → List (Nat × ValueDriver) → List (Nat × ValueDriver) →
      Option (List (Nat × ValueDriver) × List (Nat × ValueDriver))
  | 0, _, _ => none
  | fuel + 1, acc, pending =>
    if pending.isEmpty then some (acc, pending)
    else
      let p := propagatePass connOf proj isMp pending
      propagateLoop connOf proj isMp fuel (acc ++ p.2) p.1

/-- Witness for C3 at a concrete input. -/
def sampleVar : Symbol :=
  { id := 2, name := "x", kind := SymbolKind.Variable, isClassType := false,
    hasInitializer := false, selectableWidth := 8, lifetime := Lifetime.Static,
    netKind := NetKind.OtherNet, hasResolutionFunction := false, netTypeName := "",
    location := 40, parentScope := 0 }

/-- Concrete side-effect driver used by the C3 witness. -/
def sampleSideEffectDriver : ValueDriver :=
  { kind := DriverKind.Procedural, source := DriverSource.AlwaysComb,
    flags := DriverFlags.none, containingSymbol := 9, isFromSideEffect := true,
    prefixExpression := Expr.hierarchicalValue 2 true 3 50 55,
    procCallRange := none }

/-- Concrete class-typed symbol used by several concrete checks. -/
def sampleClassVar : Symbol :=
  { id := 1, name := "c", kind := SymbolKind.Variable, isClassType := true,
    hasInitializer := true, selectableWidth := 32, lifetime := Lifetime.Static,
    netKind := NetKind.OtherNet, hasResolutionFunction := false, netTypeName := "",
    location := 10, parentScope := 0 }

/-- Concrete procedural driver used by several concrete checks. -/
def sampleDriver : ValueDriver :=
  { kind := DriverKind.Procedural, source := DriverSource.AlwaysComb,
    flags := DriverFlags.none, containingSymbol := 5, isFromSideEffect := false,
    prefixExpression := Expr.namedValue 2 20 25, procCallRange := none }

/-- Concrete modport-port symbol. -/
def sampleModport : Symbol :=
  { id := 3, name := "mp_y", kind := SymbolKind.ModportPort, isClassType := false,
    hasInitializer := false, selectableWidth := 4, lifetime := Lifetime.Static,
    netKind := NetKind.OtherNet, hasResolutionFunction := false, netTypeName := "",
    location := 60, parentScope := 0 }

/-- Concrete input port with an internal symbol and no internal expression. -/
def samplePort : PortInfo :=
  { direction := ArgDirection.In, internalExpr := none,
    internalSymbol := some (7, "data", 100) }

/-- Concrete plain four-bit wire with an initializer. -/
def sampleWire : Symbol :=
  { id := 4, name := "n", kind := SymbolKind.Net, isClassType := false,
    hasInitializer := true, selectableWidth := 4, lifetime := Lifetime.Static,
    netKind := NetKind.OtherNet, hasResolutionFunction := false,
    netTypeName := "wire", location := 70, parentScope := 0 }

/-- Concrete continuous driver over the wire, as produced for an assign. -/
def sampleContDriver : ValueDriver :=
  { kind := DriverKind.Continuous, source := DriverSource.Continuous,
    flags := DriverFlags.none, containingSymbol := 0, isFromSideEffect := false,
    prefixExpression := Expr.namedValue 4 80 85, procCallRange := none }

/-- Bound used for the termination argument: one more than the largest rank
of a port appearing in the pending list. -/
def pendingBound (r : Nat → Nat) (l : List (Nat × ValueDriver)) : Nat :=
  l.foldr (fun e acc => max (r e.1 + 1) acc) 0

/-- Concrete input-port continuous driver on the sample wire. -/
def sampleInputPortDriver : ValueDriver :=
  { kind := DriverKind.Continuous, source := DriverSource.Continuous,
    flags := { inputPort := true, outputPort := false, clockVar := false,
               initializer := false },
    containingSymbol := 12, isFromSideEffect := false,
    prefixExpression := Expr.namedValue 4 300 310, procCallRange := none }

/-- InstanceState (spec section 3): the record the InstanceSideEffectGraph
keeps per canonical instance body, holding the registered non-canonical
instances (by identifier) and the (reference, driver) pairs that reached
the body through one of its interface ports. -/
structure InstanceState where
  nonCanonicalInstances : List Nat
  ifacePortDrivers : List (Nat × ValueDriver)
  deriving DecidableEq

/-- A freshly created instanceMap entry. -/
def InstanceState.empty : InstanceState :=
  { nonCanonicalInstances := [], ifacePortDrivers := [] }

/-- Concrete one-procedure driver list used by the C7 witness. -/
def sampleProc : ProcDriverList :=
  [(sampleVar, [(sampleDriver, { lo := 0, hi := 7 })])]

/-- Looking up a key just written returns the written value. -/
theorem getSym_setSym_self (st : TrackerState) (s : Symbol) (v : SymState) :
    getSym (setSym st s v) s = v := by
  induction st with
  | nil => simp [setSym, getSym]
  | cons kv rest ih =>
    by_cases h : kv.1 = s
    · simp [setSym, getSym, h]
    · simp [setSym, getSym, h, ih]

/-- Writing one key leaves every other key unchanged. -/
theorem getSym_setSym_ne (st : TrackerState) (s t : Symbol) (v : SymState)
    (h : s ≠ t) : getSym (setSym st s v) t = getSym st t := by
  induction st with
  | nil => simp [setSym, getSym, h]
  | cons kv rest ih =>
    by_cases hk : kv.1 = s
    · have hnt : kv.1 ≠ t := by rw [hk]; exact h
      simp [setSym, getSym, hk, hnt, h, ih]
    · by_cases ht : kv.1 = t
      · simp [setSym, getSym, hk, ht, Ne.symm h]
      · simp [setSym, getSym, hk, ht, ih]

/-- addDriver on a class-typed symbol is a complete no-op: the interval map,
the modport side table and the diagnostics are untouched and no
interface-port reference is returned (line 382 of the source). -/
theorem addDriver_class_noop (cfg : Config) (s : Symbol) (m : SymbolDriverMap)
    (d : ValueDriver) (b : DriverBitRange) (h : s.isClassType = true) :
    addDriver cfg s m d b
      = { map := m, modportAdd := [], diags := [], ifaceRef := none } := by
  unfold addDriver
  simp [h]

/-- addDriver on a modport-port symbol of non-class type records the entry
in the side table and leaves the interval map untouched (lines 404-409). -/
theorem addDriver_modport (cfg : Config) (s : Symbol) (m : SymbolDriverMap)
    (d : ValueDriver) (b : DriverBitRange) (hc : s.isClassType = false)
    (hk : s.kind = SymbolKind.ModportPort) :
    addDriver cfg s m d b
      = { map := m, modportAdd := [(d, b)], diags := [],
          ifaceRef := if d.isFromSideEffect then none
                      else scanIfaceRef d.prefixExpression } := by
  unfold addDriver
  simp [hc, hk]

/-- A driver marked as coming from a side effect skips the interface-port
pre-scan, so addDriver returns no reference on any path (lines 392-402). -/
theorem addDriver_sideEffect_ref (cfg : Config) (s : Symbol) (m : SymbolDriverMap)
    (d : ValueDriver) (b : DriverBitRange) (h : d.isFromSideEffect = true) :
    (addDriver cfg s m d b).ifaceRef = none := by
  unfold addDriver
  simp only [h, if_true, ite_true]
  repeat' split
  all_goals rfl

/-- Class-typed and modport-port symbols never receive entries in their
interval map: a run of addDriver calls leaves such an entry exactly as it
started. -/
theorem runOps_map_invariant (cfg : Config) (ops : List (Symbol × ValueDriver × DriverBitRange)) :
    ∀ st : TrackerState, ∀ s : Symbol,
      s.isClassType = true ∨ s.kind = SymbolKind.ModportPort →
      (getSym (runOps cfg st ops) s).map = (getSym st s).map := by
  induction ops with
  | nil => intro st s _; rfl
  | cons op rest ih =>
    intro st s hs
    obtain ⟨s1, d1, b1⟩ := op
    have step : (getSym (applyAdd cfg st s1 d1 b1).1 s).map = (getSym st s).map := by
      unfold applyAdd
      by_cases he : s1 = s
      · subst he
        rw [getSym_setSym_self]
        rcases hs with hcl | hmp
        · rw [addDriver_class_noop cfg s1 (getSym st s1).map d1 b1 hcl]
        · by_cases hcl : s1.isClassType = true
          · rw [addDriver_class_noop cfg s1 (getSym st s1).map d1 b1 hcl]
          · rw [addDriver_modport cfg s1 (getSym st s1).map d1 b1
               (by simpa using hcl) hmp]
      · rw [getSym_setSym_ne _ _ _ _ he]
    rw [runOps, ih (applyAdd cfg st s1 d1 b1).1 s hs, step]

/-- C3: a driver whose isFromSideEffect flag is set skips the
interface-port pre-scan, so addDriver hands back no hierarchical reference;
consequently the clone inserted by applyInstanceSideEffect, which always
sets the flag, can never re-trigger noteInterfacePortDriver, and the
assertion inside applyInstanceSideEffect that addDriver returned null
always holds. -/
theorem C3_sideEffect_no_reentry (cfg : Config) (s : Symbol) (m : SymbolDriverMap)
    (d : ValueDriver) (b : DriverBitRange) (h : d.isFromSideEffect = true)
    (retarget : Nat → Option Symbol)
    (getBnds : ValueDriver → Symbol → Option DriverBitRange)
    (st : TrackerState) (ref : Nat) (od : ValueDriver) (inst : Nat) :
    (addDriver cfg s m d b).ifaceRef = none ∧
      (applyInstanceSideEffect cfg retarget getBnds st ref od inst).2 = true := by
  constructor
  · exact addDriver_sideEffect_ref cfg s m d b h
  · unfold applyInstanceSideEffect
    cases hr : retarget ref with
    | none => rfl
    | some target =>
      cases hb : getBnds { od with containingSymbol := inst, isFromSideEffect := true } target with
      | none => simp [hb]
      | some bounds =>
        simp only [hb]
        rw [addDriver_sideEffect_ref cfg target _ _ bounds rfl]
        rfl

/-- C3 witness: the theorem applied at a concrete side-effect driver. -/
theorem C3_sideEffect_no_reentry_witness :
    sampleSideEffectDriver.isFromSideEffect = true ∧
      (addDriver { allowDupInitialDrivers := false } sampleVar []
          sampleSideEffectDriver { lo := 0, hi := 7 }).ifaceRef = none ∧
      (applyInstanceSideEffect { allowDupInitialDrivers := false }
          (fun _ => none) (fun _ _ => none) emptyTracker 3
          sampleSideEffectDriver 9).2 = true :=
  ⟨rfl,
    (C3_sideEffect_no_reentry { allowDupInitialDrivers := false } sampleVar []
      sampleSideEffectDriver { lo := 0, hi := 7 } rfl (fun _ => none)
      (fun _ _ => none) emptyTracker 3 sampleSideEffectDriver 9).1,
    (C3_sideEffect_no_reentry { allowDupInitialDrivers := false } sampleVar []
      sampleSideEffectDriver { lo := 0, hi := 7 } rfl (fun _ => none)
      (fun _ _ => none) emptyTracker 3 sampleSideEffectDriver 9).2⟩

/-- C9: class-typed symbols never hold drivers. Any run of addDriver calls
starting from the empty tracker leaves the driver state of every
class-typed symbol empty, because each single addDriver call on such a
symbol rejects before inserting into the per-symbol interval map or the
modport side table, and getDrivers on it returns no entries. -/
theorem C9_class_symbols_undriven (cfg : Config)
    (ops : List (Symbol × ValueDriver × DriverBitRange)) (s : Symbol)
    (h : s.isClassType = true) :
    getDrivers (runOps cfg emptyTracker ops) s = [] ∧
    ∀ m d b, addDriver cfg s m d b
      = { map := m, modportAdd := [], diags := [], ifaceRef := none } := by
  constructor
  · unfold getDrivers
    rw [runOps_map_invariant cfg ops emptyTracker s (Or.inl h)]
    rfl
  · intro m d b
    exact addDriver_class_noop cfg s m d b h

/-- C9 witness: the theorem applied to a concrete run that targets the
class-typed symbol itself. -/
theorem C9_class_symbols_undriven_witness :
    sampleClassVar.isClassType = true ∧
      getDrivers (runOps { allowDupInitialDrivers := false } emptyTracker
        [(sampleClassVar, sampleDriver, { lo := 0, hi := 31 })]) sampleClassVar = [] :=
  ⟨rfl,
    (C9_class_symbols_undriven { allowDupInitialDrivers := false }
      [(sampleClassVar, sampleDriver, { lo := 0, hi := 31 })] sampleClassVar rfl).1⟩

/-- C10: getDrivers is total: any symbol without an entry in the
symbolDrivers association yields the empty list, and a modport-port symbol
yields the empty list after any run of addDriver calls, even ones
recording drivers against that port, because addDriver diverts modport
drivers into the modportPortDrivers side table and leaves the main
interval map untouched. -/
theorem C10_getDrivers_total_modport (cfg : Config)
    (ops : List (Symbol × ValueDriver × DriverBitRange)) (s : Symbol)
    (h : s.kind = SymbolKind.ModportPort) :
    (∀ (st : TrackerState) (t : Symbol), (∀ e ∈ st, e.1 ≠ t) →
      getDrivers st t = []) ∧
    getDrivers (runOps cfg emptyTracker ops) s = [] ∧
    (∀ m d b, s.isClassType = false →
      (addDriver cfg s m d b).map = m ∧ (addDriver cfg s m d b).modportAdd = [(d, b)]) := by
  refine ⟨?_, ?_, ?_⟩
  · intro st
    induction st with
    | nil => intro t _; rfl
    | cons e rest ih =>
      intro t habs
      unfold getDrivers getSym
      rw [if_neg (habs e (List.mem_cons_self _ _))]
      exact ih t (fun x hx => habs x (List.mem_cons_of_mem _ hx))
  · unfold getDrivers
    rw [runOps_map_invariant cfg ops emptyTracker s (Or.inr h)]
    rfl
  · intro m d b hc
    rw [addDriver_modport cfg s m d b hc h]
    exact ⟨rfl, rfl⟩

/-- C10 witness: the theorem applied to a concrete run that records a
driver against the modport port; getDrivers still returns nothing. -/
theorem C10_getDrivers_total_modport_witness :
    sampleModport.kind = SymbolKind.ModportPort ∧
      getDrivers emptyTracker sampleModport = [] ∧
      getDrivers (runOps { allowDupInitialDrivers := false } emptyTracker
        [(sampleModport, sampleDriver, { lo := 0, hi := 3 })]) sampleModport = [] :=
  ⟨rfl,
    (C10_getDrivers_total_modport { allowDupInitialDrivers := false }
      [(sampleModport, sampleDriver, { lo := 0, hi := 3 })] sampleModport rfl).1
      emptyTracker sampleModport (fun e he => absurd he (List.not_mem_nil e)),
    (C10_getDrivers_total_modport { allowDupInitialDrivers := false }
      [(sampleModport, sampleDriver, { lo := 0, hi := 3 })] sampleModport rfl).2.1⟩

/-- C8 (amended): add(portSymbol) records nothing unless the direction is
In or InOut; when it records, the InputPort flag is set exactly for
direction In; and when the port has no internal expression but has an
internal symbol, the synthesized named-value reference carries a source
range that starts at the symbol location and spans the length of the
symbol name (not a zero-length range). -/
theorem C8_addPortSymbol (p : PortInfo) :
    (p.direction ≠ ArgDirection.In ∧ p.direction ≠ ArgDirection.InOut →
      addPortSymbol p = none)
    ∧ (∀ e f, addPortSymbol p = some (e, f) →
        (f.inputPort = true ↔ p.direction = ArgDirection.In))
    ∧ (∀ symId symName loc,
        p.internalExpr = none → p.internalSymbol = some (symId, symName, loc) →
        p.direction = ArgDirection.In ∨ p.direction = ArgDirection.InOut →
        addPortSymbol p
          = some (Expr.namedValue symId loc (loc + symName.length),
              if p.direction = ArgDirection.In then
                { DriverFlags.none with inputPort := true }
              else DriverFlags.none)) := by
  refine ⟨?_, ?_, ?_⟩
  · intro h
    unfold addPortSymbol
    simp [h]
  · intro e f hf
    unfold addPortSymbol at hf
    by_cases hd : p.direction ≠ ArgDirection.In ∧ p.direction ≠ ArgDirection.InOut
    · simp [hd] at hf
    · simp only [hd, if_false] at hf
      by_cases hin : p.direction = ArgDirection.In
      · simp only [hin, if_true, ite_true] at hf
        cases he : p.internalExpr with
        | some e0 =>
          rw [he] at hf
          simp at hf
          obtain ⟨_, hf2⟩ := hf
          rw [← hf2]
          simp [hin, DriverFlags.none]
        | none =>
          rw [he] at hf
          cases hi : p.internalSymbol with
          | some t =>
            obtain ⟨a, bb, c⟩ := t
            rw [hi] at hf
            simp at hf
            obtain ⟨_, hf2⟩ := hf
            rw [← hf2]
            simp [hin, DriverFlags.none]
          | none => rw [hi] at hf; simp at hf
      · simp only [hin, if_false, ite_false] at hf
        constructor
        · intro hflag
          exfalso
          cases he : p.internalExpr with
          | some e0 =>
            rw [he] at hf
            simp at hf
            obtain ⟨_, hf2⟩ := hf
            rw [← hf2] at hflag
            simp [DriverFlags.none] at hflag
          | none =>
            rw [he] at hf
            cases hi : p.internalSymbol with
            | some t =>
              obtain ⟨a, bb, c⟩ := t
              rw [hi] at hf
              simp at hf
              obtain ⟨_, hf2⟩ := hf
              rw [← hf2] at hflag
              simp [DriverFlags.none] at hflag
            | none => rw [hi] at hf; simp at hf
        · intro hc
          exact absurd hc hin
  · intro symId symName loc he hi hd
    unfold addPortSymbol
    have hcond : ¬(p.direction ≠ ArgDirection.In ∧ p.direction ≠ ArgDirection.InOut) := by
      rcases hd with h1 | h1 <;> simp [h1]
    simp only [hcond, if_false, he, hi]

/-- C8 counterexample: for a concrete input port whose internal symbol is
named data (length 4) at location 100, the synthesized named-value
reference spans locations 100 to 104; its end differs from its start, so
the range is not zero-length as the claim states. -/
theorem C8_addPortSymbol_counterexample :
    addPortSymbol samplePort
      = some (Expr.namedValue 7 100 104,
          { inputPort := true, outputPort := false, clockVar := false,
            initializer := false })
    ∧ (104 : Nat) ≠ 100 := by
  constructor
  · rfl
  · decide

/-- C8 witness: the amended theorem applied at the concrete port. -/
theorem C8_addPortSymbol_witness :
    samplePort.internalExpr = none ∧
      samplePort.internalSymbol = some (7, "data", 100) ∧
      addPortSymbol samplePort
        = some (Expr.namedValue 7 100 (100 + "data".length),
            if samplePort.direction = ArgDirection.In then
              { DriverFlags.none with inputPort := true }
            else DriverFlags.none) :=
  ⟨rfl, rfl,
    (C8_addPortSymbol samplePort).2.2 7 "data" 100 rfl rfl (Or.inl rfl)⟩

/-- C6 (amended): for a symbol that is not class-typed, addDriver
synthesizes and inserts the initializer driver ahead of the incoming driver
exactly when the interval map is empty, the symbol has an initializer, and
its kind is Net, Variable, ClassProperty or Field; the synthesized driver
spans bits 0 to selectableWidth-1 with Continuous kind for nets and
Procedural kind otherwise. In every other situation the map either gains
only the incoming driver or stays unchanged. Class-typed symbols are
rejected beforehand, which is the one correction to the claim. -/
theorem C6_initializer_synthesis (cfg : Config) (s : Symbol) (m : SymbolDriverMap)
    (d : ValueDriver) (b : DriverBitRange) (h : s.isClassType = false) :
    ((m = [] ∧ s.hasInitializer = true ∧
        (s.kind = SymbolKind.Net ∨ s.kind = SymbolKind.Variable ∨
         s.kind = SymbolKind.ClassProperty ∨ s.kind = SymbolKind.Field))
      ↔ (addDriver cfg s m d b).map
          = m ++ [(initBounds s,
                   initializerDriver s
                     (if s.kind = SymbolKind.Net then DriverKind.Continuous
                      else DriverKind.Procedural)),
                  (b, d)])
    ∧ (¬(m = [] ∧ s.hasInitializer = true ∧
          (s.kind = SymbolKind.Net ∨ s.kind = SymbolKind.Variable ∨
           s.kind = SymbolKind.ClassProperty ∨ s.kind = SymbolKind.Field)) →
        (addDriver cfg s m d b).map = m ++ [(b, d)] ∨ (addDriver cfg s m d b).map = m) := by
  cases hk : s.kind <;> cases hm : m <;> cases hi : s.hasInitializer <;>
    simp [addDriver, h, hk, hi, apply_ite AddResult.map]

/-- C6 counterexample: a class-typed variable with an initializer and an
empty map satisfies every condition on the left side of the claim, yet
addDriver inserts nothing at all, so in particular no Initializer-flagged
driver is synthesized; the claim needs the non-class-typed qualification. -/
theorem C6_initializer_synthesis_counterexample :
    sampleClassVar.hasInitializer = true ∧
      sampleClassVar.kind = SymbolKind.Variable ∧
      (addDriver { allowDupInitialDrivers := false } sampleClassVar []
          sampleDriver { lo := 0, hi := 31 }).map = [] :=
  ⟨rfl, rfl, rfl⟩

/-- C6 witness: the amended theorem applied at the concrete wire. -/
theorem C6_initializer_synthesis_witness :
    sampleWire.isClassType = false ∧
      (addDriver { allowDupInitialDrivers := false } sampleWire []
          sampleContDriver { lo := 0, hi := 3 }).map
        = [] ++ [(initBounds sampleWire,
                  initializerDriver sampleWire
                    (if sampleWire.kind = SymbolKind.Net then DriverKind.Continuous
                     else DriverKind.Procedural)),
                 ({ lo := 0, hi := 3 }, sampleContDriver)] :=
  ⟨rfl,
    (C6_initializer_synthesis { allowDupInitialDrivers := false } sampleWire []
        sampleContDriver { lo := 0, hi := 3 } rfl).1.mp ⟨rfl, rfl, Or.inl rfl⟩⟩

/-- A scan over entries none of which constitutes a problem with the new
driver emits no diagnostics. -/
theorem scanOverlaps_of_no_problem (allowDup checkOv : Bool) (s : Symbol)
    (n w u : Bool) (nt : String) (d : ValueDriver) (l : SymbolDriverMap)
    (h : ∀ e ∈ l, isProblem allowDup checkOv e.2 d = false) :
    scanOverlaps allowDup checkOv s n w u nt d l = [] := by
  induction l with
  | nil => rfl
  | cons e rest ih =>
    rw [scanOverlaps]
    simp only [h e (List.mem_cons_self e rest), Bool.false_eq_true, if_false]
    exact ih (fun x hx => h x (List.mem_cons_of_mem e hx))

/-- Without checkOverlap, the only problem source is a unidirectional-port
flag mismatch. -/
theorem isProblem_false_no_check (allowDup : Bool) (c d : ValueDriver)
    (h1 : c.isUnidirectionalPort = d.isUnidirectionalPort) :
    isProblem allowDup false c d = false := by
  unfold isProblem
  simp [h1]

/-- C2 (amended): for a plain net (neither uwire nor a resolution-less
user-defined net type) with an initializer, the first explicit continuous
driver causes the Continuous Initializer-flagged driver spanning
[0, selectableWidth-1] to be synthesized and inserted ahead of it, but no
diagnostic is emitted: plain nets are not overlap-checked, so the
MultipleContAssigns report the claim expects never happens. -/
theorem C2_wire_initializer_no_diag (cfg : Config) (s : Symbol) (d : ValueDriver)
    (b : DriverBitRange) (hc : s.isClassType = false) (hk : s.kind = SymbolKind.Net)
    (hi : s.hasInitializer = true) (hw : s.netKind = NetKind.OtherNet)
    (hip : d.flags.inputPort = false) (hop : d.flags.outputPort = false) :
    (addDriver cfg s [] d b).map
      = [(initBounds s, initializerDriver s DriverKind.Continuous), (b, d)]
    ∧ (addDriver cfg s [] d b).diags = [] := by
  have hscan : ∀ l : SymbolDriverMap,
      (∀ e ∈ l, e.2.isUnidirectionalPort = false) →
      scanOverlaps cfg.allowDupInitialDrivers false s true false false
        s.netTypeName d l = [] := by
    intro l hl
    refine scanOverlaps_of_no_problem _ _ _ _ _ _ _ _ _ (fun e he => ?_)
    refine isProblem_false_no_check _ _ _ ?_
    rw [hl e he]
    unfold ValueDriver.isUnidirectionalPort
    rw [hip, hop, Bool.or_self]
  constructor
  · unfold addDriver
    simp [hc, hk, hi]
  · unfold addDriver
    simp only [hc, Bool.false_eq_true, if_false, hk, hi]
    simp only [List.isEmpty_nil, if_true, ite_true, List.nil_append,
      List.isEmpty_cons, Bool.false_eq_true, if_false]
    have e1 : (NetKind.OtherNet == NetKind.UWire) = false := rfl
    have e2 : (NetKind.OtherNet == NetKind.UserDefined) = false := rfl
    have e3 : (SymbolKind.Net == SymbolKind.LocalAssertionVar) = false := rfl
    simp only [isVariableKind, hk, hw, e1, e2, e3, Bool.false_and, Bool.and_false,
      Bool.false_or, Bool.or_false, Bool.or_self]
    refine hscan _ (fun e he => ?_)
    have hm : e ∈ [(initBounds s, initializerDriver s DriverKind.Continuous)] :=
      List.mem_of_mem_filter he
    simp only [List.mem_singleton] at hm
    rw [hm]
    rfl

/-- C2 counterexample: the literal scenario of the claim, a four-bit plain
wire with an initializer receiving one explicit continuous driver over the
same bits. The initializer driver is synthesized and the two continuous
drivers do overlap, yet the diagnostic list is empty, contradicting the
claimed MultipleContAssigns report. -/
theorem C2_wire_initializer_no_diag_counterexample :
    (addDriver { allowDupInitialDrivers := false } sampleWire []
        sampleContDriver { lo := 0, hi := 3 }).map
      = [(initBounds sampleWire, initializerDriver sampleWire DriverKind.Continuous),
         ({ lo := 0, hi := 3 }, sampleContDriver)]
    ∧ rangesOverlap (initBounds sampleWire) { lo := 0, hi := 3 } = true
    ∧ (addDriver { allowDupInitialDrivers := false } sampleWire []
        sampleContDriver { lo := 0, hi := 3 }).diags = [] :=
  ⟨rfl, rfl, rfl⟩

/-- C2 witness: the amended theorem applied at the concrete wire scenario. -/
theorem C2_wire_initializer_no_diag_witness :
    sampleWire.kind = SymbolKind.Net ∧ sampleWire.hasInitializer = true ∧
      (addDriver { allowDupInitialDrivers := false } sampleWire []
          sampleContDriver { lo := 0, hi := 3 }).diags = [] :=
  ⟨rfl, rfl,
    (C2_wire_initializer_no_diag { allowDupInitialDrivers := false } sampleWire
      sampleContDriver { lo := 0, hi := 3 } rfl rfl rfl rfl rfl rfl).2⟩

/-- C4: whenever the propagation loop returns, the modportPortDrivers side
table is empty: the loop only exits through the branch that observed the
freshly swapped-in table to be empty, so every entry recorded by addDriver,
including the entries added by re-projected drivers during propagation
itself, has been drained. -/
theorem C4_propagate_drains (connOf : Nat → Option Expr) (proj : Nat → List Nat)
    (isMp : Nat → Bool) (fuel : Nat) (acc pending : List (Nat × ValueDriver))
    (dep rem : List (Nat × ValueDriver))
    (h : propagateLoop connOf proj isMp fuel acc pending = some (dep, rem)) :
    rem = [] := by
  induction fuel generalizing acc pending with
  | zero => simp [propagateLoop] at h
  | succ n ih =>
    rw [propagateLoop] at h
    by_cases hp : pending.isEmpty
    · simp only [hp, if_true, ite_true, Option.some.injEq, Prod.mk.injEq] at h
      rw [← h.2]
      exact List.isEmpty_iff.mp hp
    · simp only [hp, Bool.false_eq_true, if_false] at h
      exact ih _ _ h

/-- C4 witness: a concrete run of the loop on one pending entry whose port
has no connection expression; the entry is drained and the table is empty. -/
theorem C4_propagate_drains_witness :
    propagateLoop (fun _ => none) (fun _ => []) (fun _ => true) 2 []
        [(0, sampleDriver)] = some ([], []) ∧ ([] : List (Nat × ValueDriver)) = [] :=
  ⟨rfl, C4_propagate_drains (fun _ => none) (fun _ => []) (fun _ => true) 2 []
    [(0, sampleDriver)] [] [] rfl⟩

/-- Every pending entry is below the bound. -/
theorem le_pendingBound (r : Nat → Nat) (l : List (Nat × ValueDriver))
    (e : Nat × ValueDriver) (h : e ∈ l) : r e.1 + 1 ≤ pendingBound r l := by
  induction l with
  | nil => cases h
  | cons x rest ih =>
    rcases List.mem_cons.mp h with h1 | h1
    · rw [h1]
      exact le_max_left _ _
    · exact le_trans (ih h1) (le_max_right _ _)

/-- The bound is the least number above all pending ranks. -/
theorem pendingBound_le (r : Nat → Nat) (l : List (Nat × ValueDriver)) (k : Nat)
    (h : ∀ e ∈ l, r e.1 + 1 ≤ k) : pendingBound r l ≤ k := by
  induction l with
  | nil => exact Nat.zero_le k
  | cons x rest ih =>
    refine max_le (h x (List.mem_cons_self x rest)) ?_
    exact ih (fun e he => h e (List.mem_cons_of_mem x he))

/-- Every entry of the modport part of a pass comes from a pending entry
whose port has a connection expression and projects onto it. -/
theorem mem_propagatePass (connOf : Nat → Option Expr) (proj : Nat → List Nat)
    (isMp : Nat → Bool) (e2 : Nat × ValueDriver) (l : List (Nat × ValueDriver))
    (h : e2 ∈ (propagatePass connOf proj isMp l).1) :
    ∃ e ∈ l, (connOf e.1).isSome = true ∧ e2.1 ∈ proj e.1 ∧ isMp e2.1 = true := by
  unfold propagatePass at h
  simp only [List.mem_filter] at h
  obtain ⟨hmem, hmp⟩ := h
  rw [List.mem_flatMap] at hmem
  obtain ⟨e, he, hpass⟩ := hmem
  unfold passOne at hpass
  cases hc : connOf e.1 with
  | none => rw [hc] at hpass; simp at hpass
  | some conn =>
    rw [hc] at hpass
    simp only [List.mem_map] at hpass
    obtain ⟨q, hq, heq⟩ := hpass
    refine ⟨e, he, by rw [hc]; rfl, ?_, hmp⟩
    rw [← heq]
    exact hq

/-- With a rank function that strictly decreases along every projection
edge landing on a modport port, the loop succeeds with fuel one above the
pending bound. -/
theorem propagateLoop_succeeds (connOf : Nat → Option Expr) (proj : Nat → List Nat)
    (isMp : Nat → Bool) (r : Nat → Nat)
    (hr : ∀ p q, (connOf p).isSome = true → q ∈ proj p → isMp q = true → r q < r p) :
    ∀ n pending, pendingBound r pending ≤ n → ∀ acc,
      ∃ res, propagateLoop connOf proj isMp (n + 1) acc pending = some res := by
  intro n
  induction n with
  | zero =>
    intro pending hb acc
    cases pending with
    | nil => exact ⟨(acc, []), by rw [propagateLoop]; rfl⟩
    | cons x rest =>
      exfalso
      have := le_pendingBound r (x :: rest) x (List.mem_cons_self x rest)
      omega
  | succ n ih =>
    intro pending hb acc
    by_cases hp : pending.isEmpty
    · exact ⟨(acc, pending), by rw [propagateLoop]; simp [hp]⟩
    · have hnext : pendingBound r (propagatePass connOf proj isMp pending).1 ≤ n := by
        refine pendingBound_le _ _ _ (fun e he => ?_)
        obtain ⟨p, hpmem, hconn, hproj, hmp⟩ :=
          mem_propagatePass connOf proj isMp e pending he
        have h1 := hr p.1 e.1 hconn hproj hmp
        have h2 := le_pendingBound r pending p hpmem
        omega
      obtain ⟨res, hres⟩ :=
        ih (propagatePass connOf proj isMp pending).1 hnext
          (acc ++ (propagatePass connOf proj isMp pending).2)
      refine ⟨res, ?_⟩
      rw [propagateLoop]
      simp only [hp, Bool.false_eq_true, if_false]
      exact hres

/-- C5: the propagation loop terminates whenever the modport projection
graph admits a rank function that strictly decreases along every
re-projection edge (the acyclicity hypothesis the claim allows): some
finite fuel makes the fueled loop return. -/
theorem C5_propagate_terminates (connOf : Nat → Option Expr) (proj : Nat → List Nat)
    (isMp : Nat → Bool) (r : Nat → Nat)
    (hr : ∀ p q, (connOf p).isSome = true → q ∈ proj p → isMp q = true → r q < r p)
    (acc pending : List (Nat × ValueDriver)) :
    ∃ fuel res, propagateLoop connOf proj isMp fuel acc pending = some res := by
  obtain ⟨res, hres⟩ :=
    propagateLoop_succeeds connOf proj isMp r hr (pendingBound r pending) pending
      le_rfl acc
  exact ⟨pendingBound r pending + 1, res, hres⟩

/-- C5 witness: the theorem applied at a concrete graph with no modport
targets at all, starting from one pending entry. -/
theorem C5_propagate_terminates_witness :
    ∃ fuel res, propagateLoop (fun _ => some (Expr.otherExpr 0 0)) (fun _ => [1])
        (fun _ => false) fuel [] [(0, sampleDriver)] = some res :=
  C5_propagate_terminates (fun _ => some (Expr.otherExpr 0 0)) (fun _ => [1])
    (fun _ => false) (fun _ => 0)
    (fun _ _ _ _ h3 => absurd h3 (by simp)) [] [(0, sampleDriver)]

/-- The first branch condition is insensitive to which driver is curr. -/
theorem portBranchCond_comm (n w u : Bool) (c d : ValueDriver) :
    portBranchCond n w u c d = portBranchCond n w u d c := by
  unfold portBranchCond
  rw [Bool.or_comm c.isUnidirectionalPort, Bool.or_comm c.isInputPort]

/-- The clock-variable branch condition is insensitive to order. -/
theorem clockBranchCond_comm (c d : ValueDriver) :
    clockBranchCond c d = clockBranchCond d c := by
  unfold clockBranchCond
  exact Bool.or_comm _ _

/-- The procedural branch condition is insensitive to order. -/
theorem procBranchCond_comm (c d : ValueDriver) :
    procBranchCond c d = procBranchCond d c := by
  unfold procBranchCond
  exact Bool.and_comm _ _

/-- The verdict of handleOverlap, computed branch by branch: the port
branch tolerates the overlap exactly for nets, the clock branch tolerates
two clock variables or any procedural side, everything else is a hard
error. -/
theorem handleOverlap_snd (s : Symbol) (c d : ValueDriver) (n w u : Bool)
    (nt : String) :
    (handleOverlap s c d n w u nt).2 =
      (if portBranchCond n w u c d then n
       else if clockBranchCond c d then
         (c.isClockVar && d.isClockVar) ||
           ((c.kind == DriverKind.Procedural) || (d.kind == DriverKind.Procedural))
       else false) := by
  unfold handleOverlap
  by_cases h1 : portBranchCond n w u c d = true
  · simp [h1]
  · simp only [h1, Bool.false_eq_true, if_false, ite_false]
    by_cases h2 : clockBranchCond c d = true
    · simp only [h2, if_true, ite_true]
      by_cases h3 : (c.isClockVar && d.isClockVar) = true
      · simp [h3]
      · simp only [h3, Bool.false_eq_true, if_false, ite_false, Bool.false_or]
        by_cases h4 : ((c.kind == DriverKind.Procedural) ||
            (d.kind == DriverKind.Procedural)) = true
        · simp [h4]
        · simp [h3, h4]
    · simp only [h2, Bool.false_eq_true, if_false, ite_false]
      by_cases h3 : procBranchCond c d = true
      · simp [h3]
      · simp [h3]

/-- The diagnostic code chosen by handleOverlap, computed branch by branch. -/
theorem handleOverlap_code (s : Symbol) (c d : ValueDriver) (n w u : Bool)
    (nt : String) :
    (handleOverlap s c d n w u nt).1.map Diag.code =
      (if portBranchCond n w u c d then
         some (if n then
                 (if c.flags.inputPort then DiagCode.InputPortCoercion
                  else DiagCode.OutputPortCoercion)
               else DiagCode.InputPortAssign)
       else if clockBranchCond c d then
         (if c.isClockVar && d.isClockVar then none
          else if (c.kind == DriverKind.Procedural) ||
              (d.kind == DriverKind.Procedural) then none
          else some DiagCode.ClockVarTargetAssign)
       else if procBranchCond c d then some DiagCode.MultipleAlwaysAssigns
       else some (if w then DiagCode.MultipleUWireDrivers
                  else if u then DiagCode.MultipleUDNTDrivers
                  else if (d.kind == DriverKind.Continuous) &&
                      (c.kind == DriverKind.Continuous) then
                    DiagCode.MultipleContAssigns
                  else DiagCode.MixedVarAssigns)) := by
  unfold handleOverlap
  by_cases h1 : portBranchCond n w u c d = true
  · simp [h1]
  · simp only [h1, Bool.false_eq_true, if_false, ite_false]
    by_cases h2 : clockBranchCond c d = true
    · simp only [h2, if_true, ite_true]
      by_cases h3 : (c.isClockVar && d.isClockVar) = true
      · simp [h3]
      · simp only [h3, Bool.false_eq_true, if_false, ite_false]
        by_cases h4 : ((c.kind == DriverKind.Procedural) ||
            (d.kind == DriverKind.Procedural)) = true
        · simp [h4]
        · simp [h3, h4]
    · simp only [h2, Bool.false_eq_true, if_false, ite_false]
      by_cases h3 : procBranchCond c d = true
      · simp [h3]
      · simp [h3]

/-- In the port branch, the main range is the assignment range and the sole
note carries the port range, both selected by the flag-driven swap. -/
theorem handleOverlap_port_ranges (s : Symbol) (c d : ValueDriver) (n w u : Bool)
    (nt : String) (h : portBranchCond n w u c d = true) :
    (handleOverlap s c d n w u nt).1.map Diag.range
      = some (if d.isInputPort || c.flags.outputPort then c.getSourceRange
              else d.getSourceRange)
    ∧ (handleOverlap s c d n w u nt).1.map Diag.firstNoteRange
      = some (some (if d.isInputPort || c.flags.outputPort then d.getSourceRange
                    else c.getSourceRange)) := by
  unfold handleOverlap
  simp [h, Diag.firstNoteRange]

/-- C1 (amended): for a reported overlap, handleOverlap returns the same
warning-or-error verdict whichever driver was inserted first; for non-net
symbols the diagnostic code is also order-independent; and in the net
unidirectional-port branch, with exactly one port-flagged driver (a driver
never carries both port flags), the port and assignment range attribution
is decided purely from the flags and is order-independent, but the choice
between InputPortCoercion and OutputPortCoercion follows the flags of the
already-stored driver, so an input-port driver inserted second yields
OutputPortCoercion: the code, unlike the verdict, does depend on insertion
order. -/
theorem C1_handleOverlap_order (s : Symbol) (c d : ValueDriver) (n w u : Bool)
    (nt : String) :
    (handleOverlap s c d n w u nt).2 = (handleOverlap s d c n w u nt).2
    ∧ (n = false →
        (handleOverlap s c d n w u nt).1.map Diag.code
          = (handleOverlap s d c n w u nt).1.map Diag.code)
    ∧ (portBranchCond n w u c d = true →
        c.isUnidirectionalPort ≠ d.isUnidirectionalPort →
        (c.flags.inputPort = true → c.flags.outputPort = false) →
        (d.flags.inputPort = true → d.flags.outputPort = false) →
        ((handleOverlap s c d n w u nt).1.map Diag.range
            = (handleOverlap s d c n w u nt).1.map Diag.range
          ∧ (handleOverlap s c d n w u nt).1.map Diag.firstNoteRange
            = (handleOverlap s d c n w u nt).1.map Diag.firstNoteRange
          ∧ (n = true →
              (handleOverlap s c d n w u nt).1.map Diag.code
                = some (if c.flags.inputPort then DiagCode.InputPortCoercion
                        else DiagCode.OutputPortCoercion)))) := by
  refine ⟨?_, ?_, ?_⟩
  · rw [handleOverlap_snd, handleOverlap_snd, portBranchCond_comm n w u d c,
      clockBranchCond_comm d c, Bool.and_comm d.isClockVar,
      Bool.or_comm (d.kind == DriverKind.Procedural)]
  · intro hn
    subst hn
    rw [handleOverlap_code, handleOverlap_code, portBranchCond_comm false w u d c,
      clockBranchCond_comm d c, procBranchCond_comm d c,
      Bool.and_comm d.isClockVar, Bool.or_comm (d.kind == DriverKind.Procedural),
      Bool.and_comm (c.kind == DriverKind.Continuous)]
    simp
  · intro hpb hne hcf hdf
    have hpb2 : portBranchCond n w u d c = true := by
      rw [← portBranchCond_comm]
      exact hpb
    have r1 := handleOverlap_port_ranges s c d n w u nt hpb
    have r2 := handleOverlap_port_ranges s d c n w u nt hpb2
    have hswap : (d.isInputPort || c.flags.outputPort)
        = !(c.isInputPort || d.flags.outputPort) := by
      unfold ValueDriver.isUnidirectionalPort at hne
      unfold ValueDriver.isInputPort
      cases hci : c.flags.inputPort <;> cases hco : c.flags.outputPort <;>
        cases hdi : d.flags.inputPort <;> cases hdo : d.flags.outputPort <;>
        simp_all
    refine ⟨?_, ?_, ?_⟩
    · rw [r1.1, r2.1, hswap]
      cases hx : (c.isInputPort || d.flags.outputPort) <;> simp
    · rw [r1.2, r2.2, hswap]
      cases hx : (c.isInputPort || d.flags.outputPort) <;> simp
    · intro hn
      subst hn
      rw [handleOverlap_code]
      simp [hpb]

/-- C1 counterexample: on a plain net, a plain continuous driver and an
input-port driver overlap and constitute a problem in both insertion
orders, yet the emitted diagnostic code differs with the order: with the
input-port driver stored first the code is InputPortCoercion, with it
inserted second the code is OutputPortCoercion. This refutes both the
order-independence of the code and the sentence that exactly one InputPort
flag forces InputPortCoercion regardless of order. -/
theorem C1_handleOverlap_order_counterexample :
    isProblem false false sampleContDriver sampleInputPortDriver = true
    ∧ isProblem false false sampleInputPortDriver sampleContDriver = true
    ∧ (handleOverlap sampleWire sampleContDriver sampleInputPortDriver
        true false false "").1.map Diag.code = some DiagCode.OutputPortCoercion
    ∧ (handleOverlap sampleWire sampleInputPortDriver sampleContDriver
        true false false "").1.map Diag.code = some DiagCode.InputPortCoercion
    ∧ (some DiagCode.OutputPortCoercion ≠ some DiagCode.InputPortCoercion) := by
  refine ⟨rfl, rfl, rfl, rfl, by decide⟩

/-- C1 witness: the amended theorem applied at the concrete pair of the
counterexample, with every hypothesis discharged there. -/
theorem C1_handleOverlap_order_witness :
    portBranchCond true false false sampleContDriver sampleInputPortDriver = true
    ∧ sampleContDriver.isUnidirectionalPort ≠ sampleInputPortDriver.isUnidirectionalPort
    ∧ (handleOverlap sampleWire sampleContDriver sampleInputPortDriver
          true false false "").2
        = (handleOverlap sampleWire sampleInputPortDriver sampleContDriver
          true false false "").2
    ∧ (handleOverlap sampleWire sampleContDriver sampleInputPortDriver
          true false false "").1.map Diag.range
        = (handleOverlap sampleWire sampleInputPortDriver sampleContDriver
          true false false "").1.map Diag.range :=
  ⟨rfl, by decide,
    (C1_handleOverlap_order sampleWire sampleContDriver sampleInputPortDriver
      true false false "").1,
    ((C1_handleOverlap_order sampleWire sampleContDriver sampleInputPortDriver
        true false false "").2.2 rfl (by decide) (fun h => by cases h) (fun _ => rfl)).1⟩

end DT
